import Mathlib

/-!
Verification of the matchmaking / session / premium-entitlement core of the
anonymous chat bot (src/db.py and src/main.py).

The PostgreSQL tables of src/db.py are embedded as Lean lists in table order:
a SELECT without ORDER BY that fetches one row is modelled as List.find? in
list order, INSERT as an append, upsert (ON CONFLICT DO UPDATE) as a
structural-recursive update of the matching row, DELETE as a filter.
Timestamps are rationals counting seconds; a Python timedelta of d days is
d * 86400 seconds, and timedelta.days is the floor of that quotient.

Every db-level function in src/db.py runs its statements on a pooled
connection WITHOUT an explicit transaction block, so asyncpg autocommits each
statement separately; the state after each individual statement is therefore
observable by other connections.  findMatchStates below lists those
per-statement commit points for find_match.
-/

namespace AnonChat

/-- Row of the users table (src/db.py, create_tables / migrate_tables). -/
structure UserRow where
  user_id : Nat
  gender : Option String := none
  country : Option String := none
  age : Option Nat := none
  is_premium : Bool := false
  vip_expiry : Option ℚ := none
  current_order_id : Option String := none
deriving Repr, DecidableEq

/-- Row of the search_queue table (src/db.py, create_tables). -/
structure QueueEntry where
  user_id : Nat
  looking_for : String
deriving Repr, DecidableEq

/-- Row of the active_chats table (src/db.py, create_tables). -/
structure ChatRow where
  user_1 : Nat
  user_2 : Nat
deriving Repr, DecidableEq

/-- The persistent database state: the four tables of src/db.py. -/
structure DBState where
  users : List UserRow
  queue : List QueueEntry
  chats : List ChatRow
  banned : List Nat
deriving Repr, DecidableEq

/-- Seconds in a day: timedelta(days = d) adds d * 86400 seconds. -/
def secondsPerDay : ℚ := 86400

/-- db.get_user: SELECT * FROM users WHERE user_id = $1 (src/db.py 80-82). -/
def getUser (s : DBState) (uid : Nat) : Option UserRow :=
  s.users.find? (fun r => r.user_id == uid)

/-- db.check_premium (src/db.py 107-114): permanent flag, or expiry strictly
in the future. -/
def check_premium (s : DBState) (now : ℚ) (uid : Nat) : Bool :=
  match getUser s uid with
  | none => false
  | some r =>
    r.is_premium ||
      (match r.vip_expiry with
       | some e => decide (now < e)
       | none => false)

/-- The fresh row inserted by make_premium when no row exists: only user_id,
vip_expiry and current_order_id are given, other columns take their table
defaults (src/db.py 120-123). -/
def premiumRow (uid : Nat) (expiry : ℚ) : UserRow :=
  { user_id := uid, vip_expiry := some expiry, current_order_id := none }

/-- The ON CONFLICT (user_id) DO UPDATE upsert of make_premium: updates the
matching row (user_id is the primary key) or appends a fresh one. -/
def upsertPremium (uid : Nat) (expiry : ℚ) : List UserRow → List UserRow
  | [] => [premiumRow uid expiry]
  | r :: rs =>
    if r.user_id == uid then
      { r with vip_expiry := some expiry, current_order_id := none } :: rs
    else
      r :: upsertPremium uid expiry rs

/-- db.make_premium (src/db.py 116-124): overwrites vip_expiry with
now + days and clears current_order_id. -/
def make_premium (s : DBState) (now : ℚ) (uid : Nat) (days : ℤ) : DBState :=
  { s with users := upsertPremium uid (now + days * secondsPerDay) s.users }

/-- db.ban_user (src/db.py 127-132): insert into banned_users, delete the
users row, the queue entry, and every active_chats row naming uid. -/
def ban_user (s : DBState) (uid : Nat) : DBState :=
  { s with
    banned := if s.banned.contains uid then s.banned else s.banned ++ [uid],
    users := s.users.filter (fun r => r.user_id != uid),
    queue := s.queue.filter (fun q => q.user_id != uid),
    chats := s.chats.filter (fun c => !(c.user_1 == uid || c.user_2 == uid)) }

/-- db.is_banned (src/db.py 138-141). -/
def is_banned (s : DBState) (uid : Nat) : Bool :=
  s.banned.contains uid

/-- The ON CONFLICT (user_id) DO UPDATE upsert of add_to_queue. -/
def upsertQueue (uid : Nat) (lf : String) : List QueueEntry → List QueueEntry
  | [] => [⟨uid, lf⟩]
  | q :: qs =>
    if q.user_id == uid then ⟨uid, lf⟩ :: qs else q :: upsertQueue uid lf qs

/-- db.add_to_queue (src/db.py 143-149). -/
def add_to_queue (s : DBState) (uid : Nat) (lf : String) : DBState :=
  { s with queue := upsertQueue uid lf s.queue }

/-- db.remove_from_queue (src/db.py 151-153). -/
def remove_from_queue (s : DBState) (uid : Nat) : DBState :=
  { s with queue := s.queue.filter (fun q => q.user_id != uid) }

/-- user_id IN (SELECT user_id FROM users WHERE gender = $2): some users row
has this id and the wanted gender (src/db.py 161). -/
def genderMatches (s : DBState) (uid : Nat) (g : String) : Bool :=
  s.users.any (fun r => r.user_id == uid && r.gender == some g)

/-- Candidate predicate of find_match (src/db.py 157-162): a queue entry of a
different user, gender-checked only when the caller filter is not any. -/
def eligibleEntry (s : DBState) (uid : Nat) (lf : String) (q : QueueEntry) : Bool :=
  q.user_id != uid && (lf == "any" || genderMatches s q.user_id lf)

/-- The SELECT ... LIMIT 1 FOR UPDATE SKIP LOCKED of find_match, sequential
semantics: the first eligible queue row in table order. -/
def findCandidate (s : DBState) (uid : Nat) (lf : String) : Option QueueEntry :=
  s.queue.find? (eligibleEntry s uid lf)

/-- INSERT INTO active_chats (user_1, user_2) VALUES ($1, $2). -/
def insertChat (s : DBState) (a b : Nat) : DBState :=
  { s with chats := s.chats ++ [⟨a, b⟩] }

/-- DELETE FROM search_queue WHERE user_id = $1 OR user_id = $2. -/
def deleteQueuePair (s : DBState) (a b : Nat) : DBState :=
  { s with queue := s.queue.filter (fun q => !(q.user_id == a || q.user_id == b)) }

/-- db.find_match (src/db.py 155-174): pick the first eligible candidate; on
success insert the chat row and delete both queue entries, returning the
partner id. -/
def find_match (s : DBState) (uid : Nat) (lf : String) : Option Nat × DBState :=
  match findCandidate s uid lf with
  | none => (none, s)
  | some q => (some q.user_id, deleteQueuePair (insertChat s uid q.user_id) uid q.user_id)

/-- The committed states observable while find_match runs: the three
statements execute on one connection but with no transaction block, so each
autocommits and the state after the INSERT (before the queue DELETE) is
visible to every other connection. -/
def findMatchStates (s : DBState) (uid : Nat) (lf : String) : List DBState :=
  match findCandidate s uid lf with
  | none => [s]
  | some q =>
    [s, insertChat s uid q.user_id,
     deleteQueuePair (insertChat s uid q.user_id) uid q.user_id]

/-- db.get_partner (src/db.py 176-181): first active_chats row naming uid, in
table order; returns the other side. -/
def get_partner (s : DBState) (uid : Nat) : Option Nat :=
  match s.chats.find? (fun c => c.user_1 == uid || c.user_2 == uid) with
  | some c => some (if c.user_1 == uid then c.user_2 else c.user_1)
  | none => none

/-- db.disconnect (src/db.py 183-188): look up the partner, delete every row
naming either side, return the partner. -/
def disconnect (s : DBState) (uid : Nat) : Option Nat × DBState :=
  match get_partner s uid with
  | some p =>
    let keep : ChatRow → Bool :=
      fun c => !(c.user_1 == uid || c.user_2 == uid || c.user_1 == p || c.user_2 == p)
    (some p, { s with chats := s.chats.filter keep })
  | none => (none, s)

/-- db.is_searching (src/db.py 190-193). -/
def is_searching (s : DBState) (uid : Nat) : Bool :=
  s.queue.any (fun q => q.user_id == uid)

/-- db.connect_users (src/db.py 196-204): evict both from the queue, then
insert the pair. -/
def connect_users (s : DBState) (a b : Nat) : DBState :=
  insertChat (deleteQueuePair s a b) a b

/-- Number of active_chats rows naming uid. -/
def chatCount (s : DBState) (uid : Nat) : Nat :=
  (s.chats.filter (fun c => c.user_1 == uid || c.user_2 == uid)).length

/-!
Handler layer, from src/main.py.  The handlers below model the database
effect of each Telegram handler path on DBState; outbound messages, audit
logging and the purely presentational in-memory maps are not part of the
claims and are not modelled.  Each definition cites the source lines it
embeds.
-/

/-- The registration-completeness gate of handle_text (src/main.py 926-931):
gender, age and country must all be set. -/
def registered (s : DBState) (uid : Nat) : Bool :=
  match getUser s uid with
  | some r => r.gender.isSome && r.age.isSome && r.country.isSome
  | none => false

/-- handle_text for the input "💬 Chat" / "/chat" from a user with no pending
user_states entry (src/main.py 691-1023): ban gate (702-706); the
MENU_BUTTONS branch cancels a running search instead (873-879); registration
enforcement (926-931); the chat branch itself refuses when already in a chat
(1007-1010) and otherwise enqueues the caller and runs find_match
(1020-1021).  target is the already-resolved search filter (preference
downgraded to any for non-VIPs, 1013-1016). -/
def chatCmd (s : DBState) (uid : Nat) (target : String) : DBState :=
  if is_banned s uid then s
  else if is_searching s uid then remove_from_queue s uid
  else if !(registered s uid) then s
  else if (get_partner s uid).isSome then s
  else (find_match (add_to_queue s uid target) uid target).2

/-- handle_report_buttons for callback data "find_new_partner"
(src/main.py 1481-1510): it enqueues the clicker and runs find_match with NO
ban gate and, unlike the "💬 Chat" branch, NO already-in-chat guard. -/
def findNewPartnerCb (s : DBState) (uid : Nat) (target : String) : DBState :=
  (find_match (add_to_queue s uid target) uid target).2

/-- handle_text for "❌ Exit Chat" / "/exit" (src/main.py 713-763), database
effect: no-op unless searching or in a chat, else disconnect then
remove_from_queue. -/
def exitCmd (s : DBState) (uid : Nat) : DBState :=
  if is_banned s uid then s
  else if !(is_searching s uid) && (get_partner s uid).isNone then s
  else remove_from_queue (disconnect s uid).2 uid

/-- admin_op for "/addvip uid days" (src/main.py 1423-1442): calls
db.make_premium directly with the requested day count. -/
def addvipCmd (s : DBState) (now : ℚ) (uid : Nat) (days : ℤ) : DBState :=
  make_premium s now uid days

/-- admin_op for "/removevip uid" (src/main.py 1445-1448): make_premium with
zero days. -/
def removevipCmd (s : DBState) (now : ℚ) (uid : Nat) : DBState :=
  make_premium s now uid 0

/-- handle_payment_selection, admin "approve_target_days" branch
(src/main.py 1284-1313): reads the target row (the code raises when it is
missing, modelled as none); when the stored expiry is strictly in the future
it adds timedelta.days plus a one-day buffer to the grant, then writes the
total through db.make_premium. -/
def approveCb (s : DBState) (now : ℚ) (target : Nat) (days_to_add : ℤ) : Option DBState :=
  match getUser s target with
  | none => none
  | some r =>
    let total_days : ℤ :=
      match r.vip_expiry with
      | some e =>
        if now < e then (⌊(e - now) / secondsPerDay⌋ + 1) + days_to_add
        else days_to_add
      | none => days_to_add
    some (make_premium s now target total_days)

/-- Outcome of relaying one inbound message (text or media). -/
inductive Outcome where
  | ignored
  | proofToAdmin (days : ℤ)
  | locked (remaining : ℤ)
  | forwardedMedia (partner : Nat)
  | blockedLink
  | suppressed
  | forwardedText (partner : Nat)
deriving Repr, DecidableEq

/-- Does the character list start with pat? -/
def charsStartWith : List Char → List Char → Bool
  | [], _ => true
  | _ :: _, [] => false
  | a :: as, b :: bs => a == b && charsStartWith as bs

/-- Does the character list contain pat as a contiguous run? -/
def charsContain (pat : List Char) : List Char → Bool
  | [] => charsStartWith pat []
  | c :: rest => charsStartWith pat (c :: rest) || charsContain pat rest

/-- Substring test, used for the re.search link filter and the Python
"in" operator on strings. -/
def containsSub (pat s : String) : Bool :=
  charsContain pat.toList s.toList

/-- re.search of (http|https|t.me|www|.com) with IGNORECASE
(src/main.py 1082). -/
def textHasLink (text : String) : Bool :=
  let t := text.toLower
  containsSub "http" t || containsSub "t.me" t || containsSub "www" t || containsSub ".com" t

/-- blocked_words of the relay branch (src/main.py 1090-1094). -/
def blocked_words : List String :=
  ["❌ Exit Chat", "🚨 Report Partner", "🔙 Back", "⚙️ Settings", "💬 Chat",
   "💎 Premium", "❓ Help", "ℹ️ About", "🔄 Re-Chat", "❤️ Preferences",
   "🎲 Random", "👩 Girls (VIP)", "👨 Boys (VIP)"]

/-- handle_text chat-relay branch (src/main.py 1079-1106), given the sender
already has this partner: link filter, then command/menu suppression, then
forward.  The branch never consults active_sessions or any clock, which is
why this function takes no time argument. -/
def relayText (text : String) (partner : Nat) : Outcome :=
  if textHasLink text then .blockedLink
  else if text.startsWith "/" || blocked_words.contains text then .suppressed
  else .forwardedText partner

/-- active_sessions lookup: per-user session start time (src/main.py 247-248,
1189). -/
def lookupSession (sessions : List (Nat × ℚ)) (uid : Nat) : Option ℚ :=
  (sessions.find? (fun p => p.1 == uid)).map (fun p => p.2)

/-- user_states.get(user_id, ""): the pending in-memory state string
(src/main.py 1144). -/
def lookupState (states : List (Nat × String)) (uid : Nat) : String :=
  (((states.find? (fun p => p.1 == uid)).map (fun p => p.2))).getD ""

/-- Day count shown on the approve button (src/main.py 1145-1152): default
30; when the state contains WAITING_PAYMENT_, the integer after the last
underscore, keeping 30 when parsing fails. -/
def waitingDays (state : String) : ℤ :=
  if containsSub "WAITING_PAYMENT_" state then
    match ((state.splitOn "_").getLastD "").toInt? with
    | some n => n
    | none => 30
  else 30

/-- handle_media (src/main.py 1124-1247), relay outcome: ban gate; with no
partner, a photo is forwarded to the admin as payment proof carrying the
approve-button day count and anything else is silently dropped; with a
partner, media is locked while the in-memory session is younger than 120
seconds (remaining = int(120 - elapsed), truncation of a positive value)
and copied to the partner otherwise.  The user_states pop and the audit
logging have no bearing on the outcome and are not modelled. -/
def handle_media (s : DBState) (sessions : List (Nat × ℚ))
    (states : List (Nat × String)) (uid : Nat) (isPhoto : Bool) (now : ℚ) : Outcome :=
  if is_banned s uid then .ignored
  else
    match get_partner s uid with
    | none =>
      if isPhoto then .proofToAdmin (waitingDays (lookupState states uid))
      else .ignored
    | some p =>
      match lookupSession sessions uid with
      | some start =>
        if now - start < 120 then .locked ⌊120 - (now - start)⌋
        else .forwardedMedia p
      | none => .forwardedMedia p

/-!
Helper lemmas.
-/

/-- Upserting the premium fields rewrites exactly the found row. -/
lemma find?_upsertPremium (uid : Nat) (x : ℚ) (l : List UserRow) (r : UserRow)
    (h : l.find? (fun w => w.user_id == uid) = some r) :
    (upsertPremium uid x l).find? (fun w => w.user_id == uid) =
      some { r with vip_expiry := some x, current_order_id := none } := by
  induction l with
  | nil => simp at h
  | cons a t ih =>
    rw [List.find?_cons] at h
    cases ha : (a.user_id == uid) with
    | true =>
      rw [ha] at h
      simp only [Option.some.injEq] at h
      subst h
      rw [upsertPremium, if_pos ha, List.find?_cons]
      have : ({ a with vip_expiry := some x, current_order_id := none } : UserRow).user_id == uid := ha
      rw [this]
    | false =>
      rw [ha] at h
      rw [upsertPremium, if_neg (by rw [ha]; exact Bool.false_ne_true), List.find?_cons, ha]
      exact ih h

/-- A row found by getUser after make_premium, given the row before. -/
lemma getUser_make_premium (s : DBState) (now : ℚ) (uid : Nat) (days : ℤ) (r : UserRow)
    (hr : getUser s uid = some r) :
    getUser (make_premium s now uid days) uid =
      some { r with vip_expiry := some (now + days * secondsPerDay),
                    current_order_id := none } :=
  find?_upsertPremium uid _ s.users r hr

/-- A list of length at most one has only one member. -/
lemma eq_of_mem_of_length_le_one {α : Type} {l : List α} (h : l.length ≤ 1)
    {a b : α} (ha : a ∈ l) (hb : b ∈ l) : a = b := by
  cases l with
  | nil => cases ha
  | cons x t =>
    cases t with
    | nil =>
      rw [List.mem_singleton] at ha hb
      rw [ha, hb]
    | cons y t2 => simp at h

/-- A successful get_partner comes from a chat row naming both sides. -/
lemma get_partner_some {s : DBState} {u p : Nat} (h : get_partner s u = some p) :
    ∃ c ∈ s.chats, (c.user_1 = u ∨ c.user_2 = u) ∧ (c.user_1 = p ∨ c.user_2 = p) := by
  unfold get_partner at h
  cases hf : s.chats.find? (fun c => c.user_1 == u || c.user_2 == u) with
  | none => rw [hf] at h; simp at h
  | some c =>
    rw [hf] at h
    have hmem := List.mem_of_find?_eq_some hf
    have hpred := List.find?_some hf
    simp only [Bool.or_eq_true, beq_iff_eq] at hpred
    refine ⟨c, hmem, hpred, ?_⟩
    simp only [Option.some.injEq] at h
    cases hc1 : (c.user_1 == u) with
    | true => rw [hc1] at h; simp at h; right; exact h
    | false => rw [hc1] at h; simp at h; left; exact h

/-!
Concrete states used by the claim theorems.
-/

/-- A fully registered user row. -/
def regRow (uid : Nat) (g : String) : UserRow :=
  { user_id := uid, gender := some g, country := some "India", age := some 21 }

/-- Two registered users; user 2 is already queued. -/
def c1S0 : DBState :=
  { users := [regRow 1 "male", regRow 2 "female"],
    queue := [⟨2, "any"⟩], chats := [], banned := [] }

/-- The state in which handle_text runs find_match for user 1: the "💬 Chat"
branch first executes add_to_queue(1) (src/main.py 1020) and then
find_match(1, target) (src/main.py 1021), so the caller is queued when
find_match starts. -/
def c1S1 : DBState := add_to_queue c1S0 1 "any"

/-- Three registered users, nobody queued, chatting or banned. -/
def c4S0 : DBState :=
  { users := [regRow 1 "male", regRow 2 "female", regRow 3 "male"],
    queue := [], chats := [], banned := [] }

/-- A run of real handler paths: 1 searches, 2 searches and matches 1, 1
exits (receiving the persistent "Find new partner" inline button), 1 and 2
search and match again, then 1 clicks the old "Find new partner" button
while chatting with 2 (the callback has no in-chat guard), and finally 3
searches and is matched with the still-queued 1. -/
def c4Trace : DBState :=
  chatCmd
    (findNewPartnerCb
      (chatCmd (chatCmd (exitCmd (chatCmd (chatCmd c4S0 1 "any") 2 "any") 1) 1 "any") 2 "any")
      1 "any")
    3 "any"

/-- Scenario of the spec: user 1 (male, filter any) and user 2 (female,
filter female) both queued. -/
def c6S : DBState :=
  { users := [regRow 1 "male", regRow 2 "female"],
    queue := [⟨1, "any"⟩, ⟨2, "female"⟩], chats := [], banned := [] }

/-- c6S after a female user 3 registers and enters the queue. -/
def c6S2 : DBState :=
  add_to_queue { c6S with users := c6S.users ++ [regRow 3 "female"] } 3 "any"

/-- Queue state for the no-self-match witness: user 2 queued, user 1 calls. -/
def c5S : DBState :=
  { users := [regRow 1 "male", regRow 2 "female"],
    queue := [⟨2, "any"⟩], chats := [], banned := [] }

/-!
Claim theorems.
-/

/-- C1: the claim states that a successful find_match creates the session and
removes both queue entries within one atomic transaction boundary, so that no
observable state has a user both in the search queue and in an active
session.  The code runs the SELECT, INSERT and DELETE without a transaction
block, so each statement autocommits: in the committed state right after the
INSERT, caller 1 is still queued (is_searching) while already paired with 2.
The matched id itself is returned as specified. -/
theorem find_match_not_atomic :
    (find_match c1S1 1 "any").1 = some 2 ∧
    ∃ st ∈ findMatchStates c1S1 1 "any",
      is_searching st 1 = true ∧ get_partner st 1 = some 2 := by decide

/-- C4: the claim states that in every reachable state get_partner is
symmetric and each id lies in at most one session.  The trace c4Trace of real
handler steps reaches a state where get_partner 3 = some 1 but
get_partner 1 = some 2, and user 1 sits in two active_chats rows: the
find_new_partner callback lacks the already-in-chat guard that the "💬 Chat"
branch has, so a chatting user can re-enter the queue and be matched again. -/
theorem get_partner_asymmetry :
    get_partner c4Trace 3 = some 1 ∧ get_partner c4Trace 1 = some 2 ∧
    chatCount c4Trace 1 = 2 := by decide

/-- C5: find_match never returns the caller: the candidate query excludes the
caller id, for every database state, filter and outcome. -/
theorem find_match_no_self (s : DBState) (uid : Nat) (lf : String) (p : Nat) (t : DBState)
    (h : find_match s uid lf = (some p, t)) : p ≠ uid := by
  unfold find_match at h
  cases hf : findCandidate s uid lf with
  | none => rw [hf] at h; simp at h
  | some q =>
    rw [hf] at h
    simp only [Prod.mk.injEq, Option.some.injEq] at h
    obtain ⟨hp, -⟩ := h
    subst hp
    have hq : eligibleEntry s uid lf q = true := List.find?_some hf
    unfold eligibleEntry at hq
    simp only [Bool.and_eq_true, bne_iff_ne, ne_eq] at hq
    exact hq.1

/-- Witness for C5 at a concrete queue: find_match c5S 1 returns user 2. -/
theorem find_match_no_self_witness : (2 : Nat) ≠ 1 :=
  find_match_no_self c5S 1 "any" 2 (find_match c5S 1 "any").2 rfl

/-- C6: with a non-any filter, any returned partner has the stored gender the
caller asked for; and filtering is one-sided, as in the spec scenario: with
male 1 (filter any) and female 2 (filter female) queued, find_match 2
"female" finds nobody, find_match 1 "any" matches 2 regardless of 2's own
filter, and once female 3 is queued find_match 2 "female" returns 3. -/
theorem find_match_filter_onesided :
    (∀ (s : DBState) (uid : Nat) (lf : String) (p : Nat) (t : DBState),
      lf ≠ "any" → find_match s uid lf = (some p, t) → genderMatches s p lf = true) ∧
    (find_match c6S 2 "female").1 = none ∧
    (find_match c6S 1 "any").1 = some 2 ∧
    (find_match c6S2 2 "female").1 = some 3 := by
  constructor
  · intro s uid lf p t hlf h
    unfold find_match at h
    cases hf : findCandidate s uid lf with
    | none => rw [hf] at h; simp at h
    | some q =>
      rw [hf] at h
      simp only [Prod.mk.injEq, Option.some.injEq] at h
      obtain ⟨hp, -⟩ := h
      subst hp
      have hq : eligibleEntry s uid lf q = true := List.find?_some hf
      unfold eligibleEntry at hq
      simp only [Bool.and_eq_true, Bool.or_eq_true, beq_iff_eq] at hq
      rcases hq.2 with h1 | h2
      · exact absurd h1 hlf
      · exact h2
  · refine ⟨?_, ?_, ?_⟩ <;> decide

/-- Witness for C6 instantiating the universal part at c6S2. -/
theorem find_match_filter_onesided_witness :
    ("female" : String) ≠ "any" ∧ genderMatches c6S2 3 "female" = true :=
  ⟨by decide,
   find_match_filter_onesided.1 c6S2 2 "female" 3 (find_match c6S2 2 "female").2
     (by decide) rfl⟩

/-- C2: on approval, when the stored expiry e is strictly in the future the
new expiry lands within one day above now + (ceil of the remaining days) + D
days, and when the expiry is absent or past it is exactly now + D days; in
both cases the pending order correlation is cleared. -/
theorem approve_stacking (s : DBState) (now : ℚ) (target : Nat) (D : ℤ) (r : UserRow)
    (hr : getUser s target = some r) :
    (∀ e, r.vip_expiry = some e → now < e →
      ∃ t, approveCb s now target D = some t ∧
        ∃ r2, getUser t target = some r2 ∧ r2.current_order_id = none ∧
          ∃ v, r2.vip_expiry = some v ∧
            0 ≤ v - (now + (⌈(e - now) / secondsPerDay⌉ + D) * secondsPerDay) ∧
            v - (now + (⌈(e - now) / secondsPerDay⌉ + D) * secondsPerDay) ≤ secondsPerDay) ∧
    ((∀ e, r.vip_expiry = some e → e ≤ now) →
      ∃ t, approveCb s now target D = some t ∧
        ∃ r2, getUser t target = some r2 ∧ r2.current_order_id = none ∧
          r2.vip_expiry = some (now + D * secondsPerDay)) := by
  constructor
  · intro e he hlt
    have happ : approveCb s now target D =
        some (make_premium s now target ((⌊(e - now) / secondsPerDay⌋ + 1) + D)) := by
      simp [approveCb, hr, he, hlt]
    refine ⟨_, happ, _, getUser_make_premium s now target _ r hr, rfl, _, rfl, ?_, ?_⟩
    all_goals
      have h1 : (⌈(e - now) / secondsPerDay⌉ : ℤ) ≤ ⌊(e - now) / secondsPerDay⌋ + 1 :=
        Int.ceil_le_floor_add_one _
      have h2 : (⌊(e - now) / secondsPerDay⌋ : ℤ) ≤ ⌈(e - now) / secondsPerDay⌉ :=
        Int.floor_le_ceil _
      have h1q : ((⌈(e - now) / secondsPerDay⌉ : ℤ) : ℚ) ≤ ((⌊(e - now) / secondsPerDay⌋ : ℤ) : ℚ) + 1 := by
        exact_mod_cast h1
      have h2q : ((⌊(e - now) / secondsPerDay⌋ : ℤ) : ℚ) ≤ ((⌈(e - now) / secondsPerDay⌉ : ℤ) : ℚ) := by
        exact_mod_cast h2
      rw [secondsPerDay] at h1q h2q ⊢
      push_cast
      nlinarith [h1q, h2q]
  · intro hpast
    have happ : approveCb s now target D = some (make_premium s now target D) := by
      cases hv : r.vip_expiry with
      | none => simp [approveCb, hr, hv]
      | some e => simp [approveCb, hr, hv, not_lt.mpr (hpast e hv)]
    exact ⟨_, happ, _, getUser_make_premium s now target D r hr, rfl, rfl⟩

/-- Witness state for C2: user 5 with expiry ten days in the future. -/
def c2Row : UserRow := { user_id := 5, vip_expiry := some 864000 }

/-- Witness database for C2. -/
def c2S : DBState := { users := [c2Row], queue := [], chats := [], banned := [] }

/-- Witness for C2: approving 30 days at now = 0 for a user whose expiry sits
ten days ahead lands within one day above the ceiling-stacked total. -/
theorem approve_stacking_witness :
    (0 : ℚ) < 864000 ∧
    ∃ t, approveCb c2S 0 5 30 = some t ∧
      ∃ r2, getUser t 5 = some r2 ∧ r2.current_order_id = none ∧
        ∃ v, r2.vip_expiry = some v ∧
          0 ≤ v - (0 + (⌈((864000 : ℚ) - 0) / secondsPerDay⌉ + 30) * secondsPerDay) ∧
          v - (0 + (⌈((864000 : ℚ) - 0) / secondsPerDay⌉ + 30) * secondsPerDay) ≤ secondsPerDay :=
  ⟨by norm_num, (approve_stacking c2S 0 5 30 c2Row rfl).1 864000 rfl (by norm_num)⟩

/-- Prior state for the C3 counterexample: expiry ten days in the future. -/
def c3Row : UserRow := { user_id := 5, vip_expiry := some 864000 }

/-- Database for the C3 counterexample. -/
def c3S : DBState := { users := [c3Row], queue := [], chats := [], banned := [] }

/-- C3 counterexample: from the same prior state (expiry ten days ahead,
864000 seconds), /addvip 30 overwrites the expiry to 30 days (2592000
seconds) while settlement approve stacks to 41 days (3542400 seconds): the
two triggers do NOT run the same stacking computation. -/
theorem addvip_approve_differ :
    (getUser (addvipCmd c3S 0 5 30) 5).map (fun r => r.vip_expiry) = some (some 2592000) ∧
    (approveCb c3S 0 5 30).map (fun t => (getUser t 5).map (fun r => r.vip_expiry)) =
      some (some (some 3542400)) ∧
    (2592000 : ℚ) ≠ 3542400 := by
  refine ⟨?_, ?_, by norm_num⟩
  · simp [addvipCmd, make_premium, c3S, c3Row, upsertPremium, getUser, secondsPerDay]
    norm_num
  · simp [approveCb, c3S, c3Row, getUser, make_premium, upsertPremium, secondsPerDay]
    norm_num

/-- C3 amended: both triggers end in db.make_premium, but only the settlement
approve path stacks remaining days first; the two produce the same result
exactly when the target row exists and its stored expiry is unset or not in
the future. -/
theorem addvip_eq_approve_no_future (s : DBState) (now : ℚ) (uid : Nat) (D : ℤ)
    (r : UserRow) (hr : getUser s uid = some r)
    (hpast : ∀ e, r.vip_expiry = some e → e ≤ now) :
    approveCb s now uid D = some (addvipCmd s now uid D) := by
  cases hv : r.vip_expiry with
  | none => simp [approveCb, addvipCmd, hr, hv]
  | some e => simp [approveCb, addvipCmd, hr, hv, not_lt.mpr (hpast e hv)]

/-- Row with no stored expiry, for the C3 amended witness. -/
def c3Row2 : UserRow := { user_id := 6 }

/-- Database for the C3 amended witness. -/
def c3S2 : DBState := { users := [c3Row2], queue := [], chats := [], banned := [] }

/-- Witness for the amended C3 at a user with no stored expiry. -/
theorem addvip_eq_approve_no_future_witness :
    approveCb c3S2 0 6 30 = some (addvipCmd c3S2 0 6 30) :=
  addvip_eq_approve_no_future c3S2 0 6 30 c3Row2 rfl (fun e he => by simp [c3Row2] at he)

/-- C9: make_premium overwrites the stored expiry with now + days (never
adding remaining time itself), clears the order correlation and leaves
is_premium untouched; hence /removevip (make_premium with 0 days) leaves
check_premium equal to the permanent flag alone. -/
theorem make_premium_overwrites (s : DBState) (now : ℚ) (uid : Nat) (days : ℤ)
    (r : UserRow) (hr : getUser s uid = some r) :
    getUser (make_premium s now uid days) uid =
      some { r with vip_expiry := some (now + days * secondsPerDay),
                    current_order_id := none } ∧
    check_premium (removevipCmd s now uid) now uid = r.is_premium := by
  refine ⟨getUser_make_premium s now uid days r hr, ?_⟩
  unfold check_premium removevipCmd
  rw [getUser_make_premium s now uid 0 r hr]
  have hnow : now + ((0 : ℤ) : ℚ) * secondsPerDay = now := by push_cast; ring
  simp [hnow]

/-- Witness row for C9: a time-limited premium user (flag off, future
expiry). -/
def c9Row : UserRow := { user_id := 7, is_premium := false, vip_expiry := some 500 }

/-- Witness database for C9. -/
def c9S : DBState := { users := [c9Row], queue := [], chats := [], banned := [] }

/-- Witness for C9 at user 7: the expiry is overwritten, the order cleared,
and after /removevip check_premium collapses to the permanent flag. -/
theorem make_premium_overwrites_witness :
    getUser (make_premium c9S 0 7 12) 7 =
      some { c9Row with vip_expiry := some ((0 : ℚ) + ((12 : ℤ) : ℚ) * secondsPerDay),
                        current_order_id := none } ∧
    check_premium (removevipCmd c9S 0 7) 0 7 = c9Row.is_premium :=
  make_premium_overwrites c9S 0 7 12 c9Row rfl

/-- C7: banning u records u in the ban set, deletes the profile row and the
queue entry, deletes every session row naming u, and (in a state where each
id lies in at most one session row) also leaves the former partner p with no
active session. -/
theorem ban_cascade (s : DBState) (u : Nat) :
    is_banned (ban_user s u) u = true ∧
    getUser (ban_user s u) u = none ∧
    is_searching (ban_user s u) u = false ∧
    get_partner (ban_user s u) u = none ∧
    (∀ p, (∀ x, chatCount s x ≤ 1) → get_partner s u = some p →
      get_partner (ban_user s u) p = none) := by
  have hchatu : (ban_user s u).chats.find? (fun c => c.user_1 == u || c.user_2 == u) = none := by
    apply List.find?_eq_none.mpr
    intro c hc
    unfold ban_user at hc
    simp only [List.mem_filter, Bool.not_eq_eq_eq_not, Bool.not_true] at hc
    simp [hc.2]
  refine ⟨?_, ?_, ?_, ?_, ?_⟩
  · by_cases hb : u ∈ s.banned
    · simp [is_banned, ban_user, hb]
    · simp [is_banned, ban_user, hb]
  · apply List.find?_eq_none.mpr
    intro r hr
    unfold ban_user at hr
    simp only [List.mem_filter, bne_iff_ne, ne_eq] at hr
    simp [hr.2]
  · rw [Bool.eq_false_iff]
    intro hany
    unfold is_searching ban_user at hany
    simp only [List.any_eq_true, List.mem_filter, bne_iff_ne, ne_eq, beq_iff_eq] at hany
    obtain ⟨q, ⟨-, hqu⟩, hq⟩ := hany
    exact hqu hq
  · unfold get_partner
    rw [hchatu]
  · intro p hwf hp
    rcases get_partner_some hp with ⟨c, hcmem, hcu, hcp⟩
    have hfind : (ban_user s u).chats.find? (fun d => d.user_1 == p || d.user_2 == p) = none := by
      apply List.find?_eq_none.mpr
      intro d hd hdp
      unfold ban_user at hd
      simp only [List.mem_filter, Bool.not_eq_eq_eq_not, Bool.not_true] at hd
      obtain ⟨hdmem, hdu⟩ := hd
      have hcPred : (c.user_1 == p || c.user_2 == p) = true := by
        rcases hcp with h | h <;> simp [h]
      have hcf : c ∈ s.chats.filter (fun d => d.user_1 == p || d.user_2 == p) :=
        List.mem_filter.mpr ⟨hcmem, hcPred⟩
      have hdf : d ∈ s.chats.filter (fun d => d.user_1 == p || d.user_2 == p) :=
        List.mem_filter.mpr ⟨hdmem, hdp⟩
      have hlen : (s.chats.filter (fun d => d.user_1 == p || d.user_2 == p)).length ≤ 1 := by
        have := hwf p
        unfold chatCount at this
        exact this
      have hcd : c = d := eq_of_mem_of_length_le_one hlen hcf hdf
      rw [← hcd] at hdu
      rcases hcu with h | h <;> simp [h] at hdu
    unfold get_partner
    rw [hfind]

/-- Witness state for C7: users 1 and 2 in one session. -/
def c7S : DBState :=
  { users := [regRow 1 "male", regRow 2 "female"], queue := [], chats := [⟨1, 2⟩],
    banned := [] }

/-- Witness for C7: banning user 1 leaves neither 1 nor partner 2 with an
active session. -/
theorem ban_cascade_witness :
    is_banned (ban_user c7S 1) 1 = true ∧
    getUser (ban_user c7S 1) 1 = none ∧
    is_searching (ban_user c7S 1) 1 = false ∧
    get_partner (ban_user c7S 1) 1 = none ∧
    get_partner (ban_user c7S 1) 2 = none := by
  obtain ⟨h1, h2, h3, h4, h5⟩ := ban_cascade c7S 1
  refine ⟨h1, h2, h3, h4, h5 2 ?_ rfl⟩
  intro x
  exact le_trans (List.length_filter_le _ _) (by norm_num [c7S])

/-- C8: with a partner and a recorded session start, media at elapsed time
below 120 seconds is rejected with the locked error (whatever its kind),
media at 120 seconds or later is forwarded to the partner, and the text
relay path never produces a locked outcome. -/
theorem media_cooldown (s : DBState) (sessions : List (Nat × ℚ))
    (states : List (Nat × String)) (uid p : Nat) (start now : ℚ)
    (hban : is_banned s uid = false)
    (hp : get_partner s uid = some p)
    (hs : lookupSession sessions uid = some start) :
    (now - start < 120 →
      ∀ b, handle_media s sessions states uid b now = .locked ⌊120 - (now - start)⌋) ∧
    (120 ≤ now - start →
      ∀ b, handle_media s sessions states uid b now = .forwardedMedia p) ∧
    (∀ text r, relayText text p ≠ .locked r) := by
  refine ⟨?_, ?_, ?_⟩
  · intro ht b
    simp [handle_media, hban, hp, hs, ht]
  · intro ht b
    simp [handle_media, hban, hp, hs, not_lt.mpr ht]
  · intro text r
    unfold relayText
    split
    · simp
    · split <;> simp

/-- Witness state for C8: users 1 and 2 in session, session started at 0. -/
def c8S : DBState := { users := [], queue := [], chats := [⟨1, 2⟩], banned := [] }

/-- Witness for C8: at 60 seconds media is locked; at 200 seconds it is
forwarded. -/
theorem media_cooldown_witness :
    ((60 : ℚ) - 0 < 120 ∧
      handle_media c8S [(1, 0)] [] 1 true 60 = .locked ⌊(120 : ℚ) - (60 - 0)⌋) ∧
    ((120 : ℚ) ≤ 200 - 0 ∧
      handle_media c8S [(1, 0)] [] 1 true 200 = .forwardedMedia 2) :=
  ⟨⟨by norm_num, (media_cooldown c8S [(1, 0)] [] 1 2 0 60 rfl rfl rfl).1 (by norm_num) true⟩,
   ⟨by norm_num, (media_cooldown c8S [(1, 0)] [] 1 2 0 200 rfl rfl rfl).2.1 (by norm_num) true⟩⟩

/-- C10: a photo from a sessionless (non-banned) user is forwarded to the
admin as payment proof with the approve-button day count, which is 30 when
the user state carries no WAITING_PAYMENT_ marker; any non-photo media from
a sessionless user is silently ignored. -/
theorem photo_payment_proof (s : DBState) (sessions : List (Nat × ℚ))
    (states : List (Nat × String)) (uid : Nat) (now : ℚ)
    (hban : is_banned s uid = false)
    (hp : get_partner s uid = none) :
    handle_media s sessions states uid true now =
      .proofToAdmin (waitingDays (lookupState states uid)) ∧
    (containsSub "WAITING_PAYMENT_" (lookupState states uid) = false →
      handle_media s sessions states uid true now = .proofToAdmin 30) ∧
    handle_media s sessions states uid false now = .ignored := by
  refine ⟨?_, ?_, ?_⟩
  · simp [handle_media, hban, hp]
  · intro hst
    simp [handle_media, hban, hp, waitingDays, hst]
  · simp [handle_media, hban, hp]

/-- Witness state for C10: user 9 exists nowhere, so no partner, no ban, no
recorded plan selection. -/
def c10S : DBState := { users := [], queue := [], chats := [], banned := [] }

/-- Witness for C10: user 9, sessionless, no plan selected: photo goes to the
admin with the 30-day default, non-photo media is dropped. -/
theorem photo_payment_proof_witness :
    handle_media c10S [] [] 9 true 0 = .proofToAdmin 30 ∧
    handle_media c10S [] [] 9 false 0 = .ignored :=
  ⟨(photo_payment_proof c10S [] [] 9 0 rfl rfl).2.1 rfl,
   (photo_payment_proof c10S [] [] 9 0 rfl rfl).2.2⟩

end AnonChat
